import Mathlib

/-!
Verification of the coordinate-transformation and review-visibility-gating
subsystem of the doll-backend repository.

The embedding models:
* `tmToWgs84` from `src/routes/geocode.js` (lines 155-191): conversion of
  EPSG:5174 planar coordinates to WGS84, with a geographic pass-through
  branch, planar-bounds guard, empirical bias correction and clamping.
  JavaScript numbers are modelled by `JsNum` (finite rationals plus NaN and
  the infinities); decimal literals of the source are written with `mkRat`
  (e.g. `mkRat 2747 1000000` for `0.002747`).  The external `proj4` library
  call is modelled as an injected function `proj : ℚ → ℚ → Option (ℚ × ℚ)`
  returning the `[lng, lat]` pair, with `none` standing for a thrown
  exception (caught by the surrounding `try`/`catch`).
* `formattedReviews` from the review router in `src/routes/scheduler.js`
  (lines 184-215): the review blinding gate.
* the `POST /api/reviews/unlock/:storeId` handler (same file, lines
  823-885): the idempotent unlock-ledger write.
-/

/-- A JavaScript number as consumed by `tmToWgs84` after `parseFloat`:
either a finite value (modelled as a rational) or one of the non-finite
values NaN, +Infinity, -Infinity that fail the `isFinite` check. -/
inductive JsNum where
  | nan : JsNum
  | posInf : JsNum
  | negInf : JsNum
  | num : ℚ → JsNum
deriving DecidableEq

/-- A WGS84 geographic coordinate, the return type of `tmToWgs84`. -/
structure GeoCoordinate where
  lat : ℚ
  lng : ℚ
deriving DecidableEq

/-- The fixed default coordinate `{ lat: 37.5665, lng: 126.978 }`
(Seoul city centre) returned by `tmToWgs84` on every failure path. -/
def defaultCoord : GeoCoordinate :=
  { lat := mkRat 375665 10000, lng := mkRat 126978 1000 }

/-- `tmToWgs84` from `src/routes/geocode.js` lines 155-191, parameterised by
the external proj4 inverse projection `proj` (returning the `[lng, lat]`
pair, `none` modelling a thrown exception).  The branches mirror the source
in order: non-finite guard, geographic pass-through (`100 ≤ x ≤ 140` and
`30 ≤ y ≤ 45`), planar-bounds guard (`50000 ≤ x ≤ 350000`, `0 ≤ y ≤
700000`), projection, bias correction (`+0.002747` latitude, `+0.00079`
longitude), and final clamping to `[33,43] × [124,132]`. -/
def tmToWgs84 (proj : ℚ → ℚ → Option (ℚ × ℚ)) (x y : JsNum) : GeoCoordinate :=
  match x, y with
  | JsNum.num tmX, JsNum.num tmY =>
    if 100 ≤ tmX ∧ tmX ≤ 140 ∧ 30 ≤ tmY ∧ tmY ≤ 45 then
      { lat := tmY, lng := tmX }
    else if tmX < 50000 ∨ 350000 < tmX ∨ tmY < 0 ∨ 700000 < tmY then
      defaultCoord
    else
      match proj tmX tmY with
      | some (lng, lat) =>
          { lat := max 33 (min 43 (lat + mkRat 2747 1000000)),
            lng := max 124 (min 132 (lng + mkRat 79 100000)) }
      | none => defaultCoord
  | _, _ => defaultCoord

/-- The geographic pass-through test of `tmToWgs84` (line 166 of the
source): both inputs finite with `100 ≤ x ≤ 140` and `30 ≤ y ≤ 45`. -/
def isPassThrough : JsNum → JsNum → Bool
  | JsNum.num tmX, JsNum.num tmY =>
      decide (100 ≤ tmX ∧ tmX ≤ 140 ∧ 30 ≤ tmY ∧ tmY ≤ 45)
  | _, _ => false

/-- The condition under which, per the fallback claim, `tmToWgs84` must
return the default coordinate: either input non-finite, or finite inputs
outside the planar bounds without matching the geographic pass-through
range, or the projection throwing. -/
def forcesDefault (proj : ℚ → ℚ → Option (ℚ × ℚ)) : JsNum → JsNum → Prop
  | JsNum.num tmX, JsNum.num tmY =>
      ¬ (100 ≤ tmX ∧ tmX ≤ 140 ∧ 30 ≤ tmY ∧ tmY ≤ 45) ∧
      ((tmX < 50000 ∨ 350000 < tmX ∨ tmY < 0 ∨ 700000 < tmY) ∨ proj tmX tmY = none)
  | _, _ => True

/-- A fixed projection standing in for proj4 when the concrete value is
irrelevant (the branches under test never invoke it). -/
def projNone : ℚ → ℚ → Option (ℚ × ℚ) := fun _ _ => none

/-- A concrete stand-in projection used for evaluating the planar branch at
sample inputs: it returns the `[lng, lat]` pair `(126, 37)`. -/
def projSample : ℚ → ℚ → Option (ℚ × ℚ) := fun _ _ => some (126, 37)

lemma defaultCoord_in_range :
    33 ≤ defaultCoord.lat ∧ defaultCoord.lat ≤ 43 ∧
    124 ≤ defaultCoord.lng ∧ defaultCoord.lng ≤ 132 := by decide

/-- Claim C5: for every finite input with `x ∈ [100, 140]` and
`y ∈ [30, 45]`, `tmToWgs84` returns `{lat: y, lng: x}` exactly, with no
bias correction and no clamping applied. -/
theorem tmToWgs84_passthrough_identity (proj : ℚ → ℚ → Option (ℚ × ℚ))
    (x y : ℚ) (hx1 : 100 ≤ x) (hx2 : x ≤ 140) (hy1 : 30 ≤ y) (hy2 : y ≤ 45) :
    tmToWgs84 proj (JsNum.num x) (JsNum.num y) = { lat := y, lng := x } := by
  simp only [tmToWgs84]
  rw [if_pos ⟨hx1, hx2, hy1, hy2⟩]

/-- Witness for C5: `tmToWgs84(127.0, 37.5)` returns
`{lat: 37.5, lng: 127.0}` (identity, no bias correction applied). -/
theorem tmToWgs84_passthrough_identity_witness :
    tmToWgs84 projNone (JsNum.num 127) (JsNum.num (mkRat 75 2)) =
      { lat := mkRat 75 2, lng := 127 } :=
  tmToWgs84_passthrough_identity projNone 127 (mkRat 75 2)
    (by decide) (by decide) (by decide) (by decide)

/-- Claim C1 (amended): for every input outside the geographic pass-through
range, `tmToWgs84` returns `lat ∈ [33, 43]` and `lng ∈ [124, 132]`. -/
theorem tmToWgs84_range_outside_passthrough (proj : ℚ → ℚ → Option (ℚ × ℚ))
    (x y : JsNum) (h : isPassThrough x y = false) :
    33 ≤ (tmToWgs84 proj x y).lat ∧ (tmToWgs84 proj x y).lat ≤ 43 ∧
    124 ≤ (tmToWgs84 proj x y).lng ∧ (tmToWgs84 proj x y).lng ≤ 132 := by
  obtain ⟨d1, d2, d3, d4⟩ := defaultCoord_in_range
  match x, y with
  | JsNum.nan, _ | JsNum.posInf, _ | JsNum.negInf, _ =>
      exact ⟨d1, d2, d3, d4⟩
  | JsNum.num tmX, JsNum.nan | JsNum.num tmX, JsNum.posInf
  | JsNum.num tmX, JsNum.negInf =>
      exact ⟨d1, d2, d3, d4⟩
  | JsNum.num tmX, JsNum.num tmY =>
      have hpass : ¬ (100 ≤ tmX ∧ tmX ≤ 140 ∧ 30 ≤ tmY ∧ tmY ≤ 45) := by
        simpa [isPassThrough] using h
      simp only [tmToWgs84]
      rw [if_neg hpass]
      by_cases hplanar : tmX < 50000 ∨ 350000 < tmX ∨ tmY < 0 ∨ 700000 < tmY
      · rw [if_pos hplanar]
        exact ⟨d1, d2, d3, d4⟩
      · rw [if_neg hplanar]
        match hproj : proj tmX tmY with
        | none => exact ⟨d1, d2, d3, d4⟩
        | some (plng, plat) =>
            refine ⟨le_max_left _ _, ?_, le_max_left _ _, ?_⟩
            · exact max_le (by decide) (min_le_left _ _)
            · exact max_le (by decide) (min_le_left _ _)

/-- Witness for C1 (amended): the out-of-planar-bounds input `(1, 1)` is
outside the pass-through range and yields an in-range coordinate. -/
theorem tmToWgs84_range_outside_passthrough_witness :
    33 ≤ (tmToWgs84 projNone (JsNum.num 1) (JsNum.num 1)).lat ∧
    (tmToWgs84 projNone (JsNum.num 1) (JsNum.num 1)).lat ≤ 43 ∧
    124 ≤ (tmToWgs84 projNone (JsNum.num 1) (JsNum.num 1)).lng ∧
    (tmToWgs84 projNone (JsNum.num 1) (JsNum.num 1)).lng ≤ 132 :=
  tmToWgs84_range_outside_passthrough projNone (JsNum.num 1) (JsNum.num 1)
    (by decide)

/-- Counterexample to C1 as stated: the finite numeric input `(135, 44)`
takes the geographic pass-through branch and `tmToWgs84` returns
`{lat: 44, lng: 135}`, which is outside `[33,43] × [124,132]`. -/
theorem tmToWgs84_range_counterexample :
    (tmToWgs84 projNone (JsNum.num 135) (JsNum.num 44)).lat = 44 ∧
    ¬ ((tmToWgs84 projNone (JsNum.num 135) (JsNum.num 44)).lat ≤ 43) ∧
    (tmToWgs84 projNone (JsNum.num 135) (JsNum.num 44)).lng = 135 ∧
    ¬ ((tmToWgs84 projNone (JsNum.num 135) (JsNum.num 44)).lng ≤ 132) := by
  decide

/-- Claim C6: `tmToWgs84` returns the fixed default coordinate whenever the
input is non-finite, or the finite values fall outside the planar bounds
without matching the geographic pass-through range, or the projection
throws. -/
theorem tmToWgs84_default_fallback (proj : ℚ → ℚ → Option (ℚ × ℚ))
    (x y : JsNum) (h : forcesDefault proj x y) :
    tmToWgs84 proj x y = defaultCoord := by
  match x, y with
  | JsNum.nan, _ | JsNum.posInf, _ | JsNum.negInf, _ => rfl
  | JsNum.num tmX, JsNum.nan | JsNum.num tmX, JsNum.posInf
  | JsNum.num tmX, JsNum.negInf => rfl
  | JsNum.num tmX, JsNum.num tmY =>
      obtain ⟨hpass, hrest⟩ := h
      simp only [tmToWgs84]
      rw [if_neg hpass]
      rcases hrest with hplanar | hproj
      · rw [if_pos hplanar]
      · by_cases hplanar : tmX < 50000 ∨ 350000 < tmX ∨ tmY < 0 ∨ 700000 < tmY
        · rw [if_pos hplanar]
        · rw [if_neg hplanar, hproj]

/-- Witness for C6: `tmToWgs84(NaN, 100)` and `tmToWgs84(1, 1)` (out of
planar bounds) both return `{lat: 37.5665, lng: 126.978}`. -/
theorem tmToWgs84_default_fallback_witness :
    tmToWgs84 projNone JsNum.nan (JsNum.num 100) = defaultCoord ∧
    tmToWgs84 projNone (JsNum.num 1) (JsNum.num 1) = defaultCoord :=
  ⟨tmToWgs84_default_fallback projNone JsNum.nan (JsNum.num 100) trivial,
   tmToWgs84_default_fallback projNone (JsNum.num 1) (JsNum.num 1)
     ⟨by decide, Or.inl (by decide)⟩⟩

/-- Claim C7: on the planar branch (finite, inside planar bounds, not
pass-through), `tmToWgs84` computes the inverse projection and then adds
exactly `+0.002747` to latitude and `+0.00079` to longitude before
clamping: the result is the clamp of the bias-corrected projection. -/
theorem tmToWgs84_planar_bias_clamp (proj : ℚ → ℚ → Option (ℚ × ℚ))
    (x y plng plat : ℚ)
    (hpass : ¬ (100 ≤ x ∧ x ≤ 140 ∧ 30 ≤ y ∧ y ≤ 45))
    (hbounds : ¬ (x < 50000 ∨ 350000 < x ∨ y < 0 ∨ 700000 < y))
    (hproj : proj x y = some (plng, plat)) :
    tmToWgs84 proj (JsNum.num x) (JsNum.num y) =
      { lat := max 33 (min 43 (plat + mkRat 2747 1000000)),
        lng := max 124 (min 132 (plng + mkRat 79 100000)) } := by
  simp only [tmToWgs84]
  rw [if_neg hpass, if_neg hbounds, hproj]

/-- Witness for C7: at the planar input `(198000, 450000)` with the sample
projection returning `(lng, lat) = (126, 37)`, the result is exactly the
clamp of `(37 + 0.002747, 126 + 0.00079)`. -/
theorem tmToWgs84_planar_bias_clamp_witness :
    tmToWgs84 projSample (JsNum.num 198000) (JsNum.num 450000) =
      { lat := max 33 (min 43 (37 + mkRat 2747 1000000)),
        lng := max 124 (min 132 (126 + mkRat 79 100000)) } :=
  tmToWgs84_planar_bias_clamp projSample 198000 450000 126 37
    (by decide) (by decide) rfl

/-! ## The review visibility gate (`src/routes/scheduler.js`, review router) -/

/-- The author row joined onto a review by the `include: { user: ... }`
clause of the review-list query (`id`, `nickname`, `avatar`). -/
structure ReviewUser where
  id : String
  nickname : String
  avatar : Option String
deriving DecidableEq

/-- A `review` row as consumed by `formattedReviews`: scalar columns plus
the optional joined `user`.  `userId` is null for anonymous reviews, which
carry only a `userName`. -/
structure Review where
  id : String
  rating : Int
  content : String
  images : List String
  tags : List String
  dollCount : Option Int
  spentAmount : Option Int
  dollImages : List String
  userId : Option String
  userName : Option String
  user : Option ReviewUser
  createdAt : Int
  updatedAt : Int
deriving DecidableEq

/-- One element of the response array built by `formattedReviews`. -/
structure GatedReview where
  id : String
  rating : Int
  content : String
  images : List String
  tags : List String
  dollCount : Option Int
  spentAmount : Option Int
  dollImages : List String
  userName : Option String
  userAvatar : Option String
  isOwner : Bool
  createdAt : Int
  updatedAt : Int
  isBlinded : Bool
deriving DecidableEq

/-- The truth value of `req.user && review.userId === req.user.id` (source
line 196): the viewer is authenticated and authored the review.  The viewer
is modelled by `Option String` (`none` = anonymous, `some uid` =
authenticated with user id `uid`). -/
def isOwnerOf (viewer : Option String) (r : Review) : Bool :=
  match viewer with
  | some uid => r.userId == some uid
  | none => false

/-- The `baseReview` object built for every review (source lines 185-200). -/
def baseReview (viewer : Option String) (r : Review) : GatedReview :=
  { id := r.id,
    rating := r.rating,
    content := r.content,
    images := r.images,
    tags := r.tags,
    dollCount := r.dollCount,
    spentAmount := r.spentAmount,
    dollImages := r.dollImages,
    userName := match r.user with
      | some u => some u.nickname
      | none => r.userName,
    userAvatar := r.user.bind ReviewUser.avatar,
    isOwner := isOwnerOf viewer r,
    createdAt := r.createdAt,
    updatedAt := r.updatedAt,
    isBlinded := false }

/-- The fixed blind placeholder string (source line 206). -/
def blindPlaceholder : String := "광고를 시청하면 후기를 볼 수 있어요"

/-- The blinded projection returned for positions ≥ 1 when locked (source
lines 203-211): the spread of `baseReview` with `content` replaced by the
placeholder, `images`, `tags` and `dollImages` emptied, `isBlinded` set. -/
def blindReview (viewer : Option String) (r : Review) : GatedReview :=
  { baseReview viewer r with
    content := blindPlaceholder,
    images := [],
    tags := [],
    dollImages := [],
    isBlinded := true }

/-- The body of the `reviews.map((review, index) => ...)` callback (source
lines 184-215): blind when `!isUnlocked && index > 0`, else the base. -/
def formatReview (isUnlocked : Bool) (viewer : Option String) (index : ℕ)
    (r : Review) : GatedReview :=
  if isUnlocked = false ∧ 0 < index then blindReview viewer r
  else baseReview viewer r

/-- Index-passing map mirroring the `(element, index)` callback of
`Array.prototype.map`, with the index starting at `k`. -/
def formatFrom (isUnlocked : Bool) (viewer : Option String) :
    ℕ → List Review → List GatedReview
  | _, [] => []
  | k, r :: rest =>
      formatReview isUnlocked viewer k r ::
        formatFrom isUnlocked viewer (k + 1) rest

/-- `formattedReviews` (source lines 184-215): the fetched review list
mapped with its array index, blinding positions ≥ 1 when not unlocked. -/
def formattedReviews (reviews : List Review) (viewer : Option String)
    (isUnlocked : Bool) : List GatedReview :=
  formatFrom isUnlocked viewer 0 reviews

lemma formatFrom_length (isUnlocked : Bool) (viewer : Option String) :
    ∀ (k : ℕ) (rs : List Review),
      (formatFrom isUnlocked viewer k rs).length = rs.length := by
  intro k rs
  induction rs generalizing k with
  | nil => rfl
  | cons r rest ih => simp [formatFrom, ih]

lemma formatFrom_getElem? (isUnlocked : Bool) (viewer : Option String) :
    ∀ (rs : List Review) (k i : ℕ),
      (formatFrom isUnlocked viewer k rs)[i]? =
        (rs[i]?).map (formatReview isUnlocked viewer (k + i)) := by
  intro rs
  induction rs with
  | nil => intro k i; rfl
  | cons r rest ih =>
      intro k i
      match i with
      | 0 => simp [formatFrom]
      | i + 1 =>
          have hk : k + 1 + i = k + (i + 1) := by omega
          simp only [formatFrom, List.getElem?_cons_succ, ih (k + 1) i, hk]

lemma formattedReviews_getElem? (rs : List Review) (viewer : Option String)
    (isUnlocked : Bool) (i : ℕ) :
    (formattedReviews rs viewer isUnlocked)[i]? =
      (rs[i]?).map (formatReview isUnlocked viewer i) := by
  have h := formatFrom_getElem? isUnlocked viewer rs 0 i
  simpa [formattedReviews] using h

lemma formatReview_locked_pos (viewer : Option String) (i : ℕ) (hi : 1 ≤ i)
    (r : Review) : formatReview false viewer i r = blindReview viewer r := by
  simp [formatReview, Nat.lt_of_lt_of_le Nat.zero_lt_one hi]

lemma formatReview_unlocked (viewer : Option String) (i : ℕ) (r : Review) :
    formatReview true viewer i r = baseReview viewer r := by
  simp [formatReview]

/-- Claim C2: with a non-empty review list and `isUnlocked = false`, the
review at position 0 is returned unredacted (the base projection) and every
review at position ≥ 1 is returned as the blinded projection: content is
the fixed placeholder, `images`, `tags` and `dollImages` are empty,
`isBlinded = true`, while rating and author display name are unredacted. -/
theorem formattedReviews_locked (rs : List Review) (viewer : Option String)
    (hne : rs ≠ []) :
    (formattedReviews rs viewer false)[0]? =
      some (baseReview viewer (rs.head hne)) ∧
    ∀ (i : ℕ) (r : Review), 1 ≤ i → rs[i]? = some r →
      (formattedReviews rs viewer false)[i]? =
        some (blindReview viewer r) ∧
      (blindReview viewer r).content = blindPlaceholder ∧
      (blindReview viewer r).images = [] ∧
      (blindReview viewer r).tags = [] ∧
      (blindReview viewer r).dollImages = [] ∧
      (blindReview viewer r).isBlinded = true ∧
      (blindReview viewer r).rating = r.rating ∧
      (blindReview viewer r).userName = (baseReview viewer r).userName := by
  constructor
  · rw [formattedReviews_getElem?]
    match rs, hne with
    | r :: rest, _ =>
        simp [formatReview]
  · intro i r hi hr
    rw [formattedReviews_getElem?, hr]
    refine ⟨?_, rfl, rfl, rfl, rfl, rfl, rfl, rfl⟩
    simp [formatReview_locked_pos viewer i hi r]

/-- Claim C3: with `isUnlocked = true`, every review is returned as the
unredacted base projection (full content) and `isBlinded` is false on every
output review. -/
theorem formattedReviews_unlocked (rs : List Review) (viewer : Option String) :
    (∀ (i : ℕ) (r : Review), rs[i]? = some r →
      (formattedReviews rs viewer true)[i]? = some (baseReview viewer r) ∧
      (baseReview viewer r).content = r.content) ∧
    ∀ g ∈ formattedReviews rs viewer true, g.isBlinded = false := by
  constructor
  · intro i r hr
    rw [formattedReviews_getElem?, hr]
    exact ⟨by simp [formatReview_unlocked], rfl⟩
  · intro g hg
    obtain ⟨i, hi, hgi⟩ := List.getElem_of_mem hg
    have h := formattedReviews_getElem? rs viewer true i
    rw [List.getElem?_eq_getElem hi, hgi] at h
    match hri : rs[i]? with
    | none => rw [hri] at h; exact absurd h (by simp)
    | some r =>
        rw [hri] at h
        simp only [Option.map_some', Option.some.injEq] at h
        rw [h, formatReview_unlocked]
        rfl

/-- Claim C4: every output review carries `isOwner = true` iff the viewer
is authenticated and its user id equals the review's `userId`; ownership is
computed the same way in every position and unlock state (so blinding never
hides it). -/
theorem formattedReviews_isOwner (rs : List Review) (viewer : Option String)
    (isUnlocked : Bool) :
    ∀ (i : ℕ) (r : Review), rs[i]? = some r →
      ((formattedReviews rs viewer isUnlocked)[i]?).map GatedReview.isOwner =
        some (isOwnerOf viewer r) ∧
      (isOwnerOf viewer r = true ↔
        ∃ uid, viewer = some uid ∧ r.userId = some uid) := by
  intro i r hr
  constructor
  · rw [formattedReviews_getElem?, hr]
    simp only [Option.map_some', Option.some.injEq]
    unfold formatReview
    split
    · rfl
    · rfl
  · match viewer with
    | none => simp [isOwnerOf]
    | some uid =>
        simp only [isOwnerOf, beq_iff_eq]
        constructor
        · intro h; exact ⟨uid, rfl, h⟩
        · rintro ⟨uid2, h1, h2⟩
          obtain rfl : uid = uid2 := by injection h1
          exact h2

/-- Claim C9: the gate never drops, adds or reorders reviews — the output
has the same length as the input, the output review at each position keeps
the id of the input review at that position, and the empty list maps to the
empty list. -/
theorem formattedReviews_preserves_structure (rs : List Review)
    (viewer : Option String) (isUnlocked : Bool) :
    (formattedReviews rs viewer isUnlocked).length = rs.length ∧
    (∀ (i : ℕ) (r : Review), rs[i]? = some r →
      ((formattedReviews rs viewer isUnlocked)[i]?).map GatedReview.id =
        some r.id) ∧
    formattedReviews [] viewer isUnlocked = [] := by
  refine ⟨formatFrom_length isUnlocked viewer 0 rs, ?_, rfl⟩
  intro i r hr
  rw [formattedReviews_getElem?, hr]
  simp only [Option.map_some', Option.some.injEq]
  unfold formatReview
  split
  · rfl
  · rfl

/-- Claim C10: a blinded output review carries `dollCount`, `spentAmount`,
`id`, `createdAt` and `updatedAt` unchanged from the input review, and
`userName` and `userAvatar` unchanged from the unredacted base projection —
only `content`, `images`, `tags` and `dollImages` are replaced. -/
theorem formattedReviews_blind_frame (rs : List Review)
    (viewer : Option String) (i : ℕ) (r : Review) (hi : 1 ≤ i)
    (hr : rs[i]? = some r) :
    ∀ g, (formattedReviews rs viewer false)[i]? = some g →
      g.dollCount = r.dollCount ∧ g.spentAmount = r.spentAmount ∧
      g.id = r.id ∧ g.userName = (baseReview viewer r).userName ∧
      g.userAvatar = (baseReview viewer r).userAvatar ∧
      g.createdAt = r.createdAt ∧ g.updatedAt = r.updatedAt ∧
      g.content = blindPlaceholder ∧ g.images = [] ∧ g.tags = [] ∧
      g.dollImages = [] := by
  intro g hg
  rw [formattedReviews_getElem?, hr] at hg
  simp only [Option.map_some', Option.some.injEq] at hg
  rw [formatReview_locked_pos viewer i hi r] at hg
  subst hg
  exact ⟨rfl, rfl, rfl, rfl, rfl, rfl, rfl, rfl, rfl, rfl, rfl⟩

/-! ## Concrete sample data for the witnesses -/

/-- A sample authenticated author row. -/
def sampleUser : ReviewUser :=
  { id := "u7", nickname := "인형달인", avatar := some "avatar.png" }

/-- Sample review at position 0 (most recent). -/
def sampleR0 : Review :=
  { id := "r0", rating := 5, content := "최고의 매장", images := ["a.jpg"],
    tags := ["친절"], dollCount := some 3, spentAmount := some 10000,
    dollImages := ["d0.jpg"], userId := some "u1", userName := none,
    user := none, createdAt := 300, updatedAt := 300 }

/-- Sample review at position 1, authored by the sample viewer `u7`. -/
def sampleR1 : Review :=
  { id := "r1", rating := 4, content := "재밌어요", images := ["b.jpg"],
    tags := ["가성비"], dollCount := some 1, spentAmount := some 5000,
    dollImages := ["d1.jpg"], userId := some "u7", userName := none,
    user := some sampleUser, createdAt := 200, updatedAt := 200 }

/-- Sample anonymous review at position 2. -/
def sampleR2 : Review :=
  { id := "r2", rating := 2, content := "보통", images := [],
    tags := [], dollCount := none, spentAmount := none,
    dollImages := [], userId := none, userName := some "익명",
    user := none, createdAt := 100, updatedAt := 100 }

/-- The sample review page `[R0, R1, R2]`, most recent first. -/
def sampleReviews : List Review := [sampleR0, sampleR1, sampleR2]

/-- Witness for C2: on `[R0, R1, R2]` with the viewer `u7` and
`isUnlocked = false`, position 0 is the unredacted base projection and
position 1 is the blinded projection with the placeholder content and
empty images. -/
theorem formattedReviews_locked_witness :
    (formattedReviews sampleReviews (some "u7") false)[0]? =
      some (baseReview (some "u7") sampleR0) ∧
    (formattedReviews sampleReviews (some "u7") false)[1]? =
      some (blindReview (some "u7") sampleR1) ∧
    (blindReview (some "u7") sampleR1).content = blindPlaceholder ∧
    (blindReview (some "u7") sampleR1).images = [] := by
  obtain ⟨h0, htail⟩ :=
    formattedReviews_locked sampleReviews (some "u7") (by decide)
  obtain ⟨h1, hc, him, -⟩ := htail 1 sampleR1 (by decide) rfl
  exact ⟨h0, h1, hc, him⟩

/-- Witness for C3: with `isUnlocked = true` the review at position 1 is
returned as the unredacted base projection with full content. -/
theorem formattedReviews_unlocked_witness :
    (formattedReviews sampleReviews (some "u7") true)[1]? =
      some (baseReview (some "u7") sampleR1) ∧
    (baseReview (some "u7") sampleR1).content = sampleR1.content := by
  obtain ⟨hidx, -⟩ := formattedReviews_unlocked sampleReviews (some "u7")
  exact hidx 1 sampleR1 rfl

/-- Witness for C4: the blinded review at position 1, authored by the
viewer `u7`, still carries `isOwner = true` while `isBlinded = true`. -/
theorem formattedReviews_isOwner_witness :
    ((formattedReviews sampleReviews (some "u7") false)[1]?).map
      GatedReview.isOwner = some true ∧
    ((formattedReviews sampleReviews (some "u7") false)[1]?).map
      GatedReview.isBlinded = some true := by
  obtain ⟨hmap, -⟩ :=
    formattedReviews_isOwner sampleReviews (some "u7") false 1 sampleR1 rfl
  constructor
  · rw [hmap]; decide
  · decide

/-- Witness for C9: on the sample list the gate preserves length and the id
at position 2, and the empty list maps to the empty list. -/
theorem formattedReviews_preserves_structure_witness :
    (formattedReviews sampleReviews (some "u7") false).length =
      sampleReviews.length ∧
    ((formattedReviews sampleReviews (some "u7") false)[2]?).map
      GatedReview.id = some sampleR2.id ∧
    formattedReviews [] (some "u7") false = [] := by
  obtain ⟨hlen, hid, hnil⟩ :=
    formattedReviews_preserves_structure sampleReviews (some "u7") false
  exact ⟨hlen, hid 2 sampleR2 rfl, hnil⟩

/-- Witness for C10: the blinded review at position 2 keeps `dollCount`,
`id` and `createdAt` from the input while its content is the placeholder. -/
theorem formattedReviews_blind_frame_witness :
    (blindReview (some "u7") sampleR2).dollCount = sampleR2.dollCount ∧
    (blindReview (some "u7") sampleR2).id = sampleR2.id ∧
    (blindReview (some "u7") sampleR2).createdAt = sampleR2.createdAt ∧
    (blindReview (some "u7") sampleR2).content = blindPlaceholder := by
  obtain ⟨h1, h2, h3, h4, h5, h6, h7, h8, h9, h10, h11⟩ :=
    formattedReviews_blind_frame sampleReviews (some "u7") 2 sampleR2
      (by decide) rfl (blindReview (some "u7") sampleR2) (by decide)
  exact ⟨h1, h3, h6, h8⟩

/-! ## The unlock endpoint (`POST /api/reviews/unlock/:storeId`) -/

/-- A `UserUnlockedStoreReview` row: the unlock-ledger entry, unique per
`(userId, storeId)`. -/
structure UnlockRecord where
  userId : String
  storeId : Int
  unlockedAt : Int
deriving DecidableEq

/-- The persistent state read and written by the unlock endpoint: the set
of `gameBusiness` store ids and the unlock ledger. -/
structure UnlockDb where
  stores : List Int
  unlocks : List UnlockRecord
deriving DecidableEq

/-- `prisma.userUnlockedStoreReview.findUnique` keyed by the
`unique_user_store_review_unlock` compound key (source lines 841-848). -/
def findUnlock (db : UnlockDb) (userId : String) (storeId : Int) :
    Option UnlockRecord :=
  db.unlocks.find? (fun u => u.userId == userId && u.storeId == storeId)

/-- The observable outcome of `POST /api/reviews/unlock/:storeId`: a 404
when the store does not exist, otherwise a success response carrying
`unlockedAt` (`alreadyUnlocked = true` for the "이미 해금된 매장입니다"
reply, `false` for the creation reply). -/
inductive UnlockResult where
  | storeMissing : UnlockResult
  | success (alreadyUnlocked : Bool) (unlockedAt : Int) : UnlockResult
deriving DecidableEq

/-- The `POST /api/reviews/unlock/:storeId` handler (source lines 823-885):
store-existence check, then the existing-record check returning an early
success with the existing `unlockedAt`, otherwise creation of a new ledger
row whose `unlockedAt` defaults to the current time `now`. -/
def unlockHandler (db : UnlockDb) (userId : String) (storeId : Int)
    (now : Int) : UnlockResult × UnlockDb :=
  if storeId ∈ db.stores then
    match findUnlock db userId storeId with
    | some existing => (UnlockResult.success true existing.unlockedAt, db)
    | none =>
        (UnlockResult.success false now,
         { db with unlocks := db.unlocks ++ [⟨userId, storeId, now⟩] })
  else (UnlockResult.storeMissing, db)

/-- Claim C8: the unlock operation is idempotent — if an unlock record
already exists for `(userId, storeId)` (and the store it references
exists), a further unlock request returns success carrying the existing
record's `unlockedAt`, and the database, in particular the unlock ledger,
is left unchanged. -/
theorem unlockHandler_idempotent (db : UnlockDb) (userId : String)
    (storeId : Int) (now : Int) (existing : UnlockRecord)
    (hstore : storeId ∈ db.stores)
    (hrec : findUnlock db userId storeId = some existing) :
    unlockHandler db userId storeId now =
      (UnlockResult.success true existing.unlockedAt, db) := by
  unfold unlockHandler
  rw [if_pos hstore, hrec]

/-- Witness for C8: re-unlocking a store already unlocked at time
`1700000000` returns success with the original timestamp and leaves the
database unchanged. -/
theorem unlockHandler_idempotent_witness :
    unlockHandler
        { stores := [11], unlocks := [⟨"u7", 11, 1700000000⟩] }
        "u7" 11 1800000000 =
      (UnlockResult.success true 1700000000,
       { stores := [11], unlocks := [⟨"u7", 11, 1700000000⟩] }) :=
  unlockHandler_idempotent
    { stores := [11], unlocks := [⟨"u7", 11, 1700000000⟩] }
    "u7" 11 1800000000 ⟨"u7", 11, 1700000000⟩ (by decide) (by decide)
